import Mathlib

set_option linter.unusedVariables false

/-!
Verification of the bootstrap orchestrator (`src/infra/bootstrap.py`) and the
shared authentication module (`src/services/common/auth/keycloak.py`) of the
devsecops-demo repository.

The Python code is shallowly embedded: each Python function that the claims
touch becomes a Lean definition of the same name, with the ambient effects
made explicit.  External process execution is represented by an oracle
argument giving the process result (`Option ProcResult`, `none` meaning the
executable is missing, as `subprocess.run` then raises `FileNotFoundError`);
Python exceptions become an `Except PyExc` result or an explicit failure
oracle; the sequence of side effects a function performs is returned as an
explicit trace (a `List` of events / commands).
-/

namespace DevSecOps

/-- Python exceptions that occur in `bootstrap.py`. -/
inductive PyExc where
  | bootstrapError (msg : String)
  | fileNotFound (msg : String)
  | keyError (key : String)
  | keyboardInterrupt
  | otherError (msg : String)
  deriving DecidableEq, Repr

/-- Result of a completed external process (`subprocess.CompletedProcess`). -/
structure ProcResult where
  returncode : Int
  stdout : String
  stderr : String
  deriving DecidableEq, Repr

/-- `charsStartWith p l` is `true` when the character list `p` is an initial
segment of `l`. -/
def charsStartWith : List Char → List Char → Bool
  | [], _ => true
  | _ :: _, [] => false
  | c :: cs, d :: ds => c == d && charsStartWith cs ds

/-- `charsContain p l` is `true` when `p` occurs as a contiguous segment of
`l` (the semantics of Python's `in` on strings, lifted to `List Char`). -/
def charsContain (p : List Char) : List Char → Bool
  | [] => p.isEmpty
  | d :: ds => charsStartWith p (d :: ds) || charsContain p ds

/-- Python's `needle in haystack` substring test on strings. -/
def pyIn (needle haystack : String) : Bool :=
  charsContain needle.data haystack.data

/-- Python's `s.lower()`, character-wise lowering (the only use site
compares the result against the ASCII literal `"yes"`). -/
def pyLower (s : String) : String :=
  ⟨s.data.map Char.toLower⟩

/-- `' '.join(cmd)`, as used in the `BootstrapError` message of `run_command`. -/
def joinCmd (cmd : List String) : String :=
  String.intercalate " " cmd

/-- Embedding of `run_command(cmd, check, show_output, ...)` from
`bootstrap.py` lines 26-41.  The `proc` argument is the outcome of
`subprocess.run`: `none` models a missing executable (Python raises
`FileNotFoundError`, which `run_command` does not catch), `some r` a process
that ran to completion.  With `check` set, a non-zero exit status makes
`subprocess.run` raise `CalledProcessError`, which `run_command` catches and
converts to `BootstrapError("Command failed: " + ' '.join(cmd))`; the
captured stderr is only logged, never placed in the raised error.  The
`show_output` flag selects streamed versus captured output and does not
affect the control flow. -/
def run_command (cmd : List String) (check : Bool) (show_output : Bool)
    (proc : Option ProcResult) : Except PyExc ProcResult :=
  match proc with
  | none => .error (.fileNotFound (joinCmd cmd))
  | some r =>
      if check && r.returncode != 0 then
        .error (.bootstrapError ("Command failed: " ++ joinCmd cmd))
      else
        .ok r

/-- The tool table of `check_prerequisites` (`bootstrap.py` lines 57-63). -/
def prerequisiteTools : List (String × List String) :=
  [("k3d", ["k3d", "version"]),
   ("kubectl", ["kubectl", "version", "--client"]),
   ("helm", ["helm", "version"]),
   ("ansible", ["ansible", "--version"]),
   ("terraform", ["terraform", "version"])]

/-- The per-tool loop body of `check_prerequisites` (`bootstrap.py` lines
65-72), folded over the tool table.  Each tool's probe command runs with
`check=False`, so `run_command` itself never raises on a non-zero exit; a
non-zero `returncode` is turned into `BootstrapError(f"{tool} is not
installed")`, and a `FileNotFoundError` escaping `subprocess.run` is caught
and turned into `BootstrapError(f"{tool} is not installed. Please install it
first.")`.  `procs` is the oracle giving each probe command's process
result. -/
def checkToolsLoop (procs : List String → Option ProcResult) :
    List (String × List String) → Except PyExc Unit
  | [] => .ok ()
  | (tool, cmd) :: rest =>
      match run_command cmd false false (procs cmd) with
      | .error (.fileNotFound _) =>
          .error (.bootstrapError (tool ++ " is not installed. Please install it first."))
      | .error e => .error e
      | .ok r =>
          if r.returncode != 0 then
            .error (.bootstrapError (tool ++ " is not installed"))
          else
            checkToolsLoop procs rest

/-- Embedding of `check_prerequisites` (`bootstrap.py` lines 53-72). -/
def check_prerequisites (procs : List String → Option ProcResult) :
    Except PyExc Unit :=
  checkToolsLoop procs prerequisiteTools

/-- Embedding of `cluster_exists(cluster_name)` (`bootstrap.py` lines 75-78):
`k3d cluster list` is run with `check=False` and the function returns
`cluster_name in result.stdout`, a plain substring test against the raw
listing output (`listStdout`). -/
def cluster_exists (cluster_name : String) (listStdout : String) : Bool :=
  pyIn cluster_name listStdout

/-- The `k3d` commands `create_cluster` can issue. -/
inductive KCmd where
  | clusterList
  | clusterDelete (name : String)
  | clusterCreate (name : String) (servers agents : Nat)
  deriving DecidableEq, Repr

/-- Embedding of `create_cluster(cluster_name, servers, agents,
skip_if_exists)` (`bootstrap.py` lines 81-109), returning the sequence of
`k3d` commands issued.  `listStdout` is the output of the `k3d cluster list`
probe run by `cluster_exists` (that probe is the leading `.clusterList`
command of every trace) and `answer` is the interactive reply to the
"Delete and recreate? (yes/no):" prompt, compared via
`user_input.lower() == 'yes'`. -/
def create_cluster (cluster_name : String) (servers agents : Nat)
    (skip_if_exists : Bool) (listStdout : String) (answer : String) :
    List KCmd :=
  if cluster_exists cluster_name listStdout then
    if skip_if_exists then
      [.clusterList]
    else if pyLower answer == "yes" then
      [.clusterList, .clusterDelete cluster_name,
       .clusterCreate cluster_name servers agents]
    else
      [.clusterList]
  else
    [.clusterList, .clusterCreate cluster_name servers agents]

/-- `true` when the command is a cluster create or delete. -/
def KCmd.isProvisioning : KCmd → Bool
  | .clusterList => false
  | .clusterDelete _ => true
  | .clusterCreate _ _ _ => true

/-!
## Multi-environment Keycloak client fan-out (`main`, lines 508-573)

A client entry of `config['keycloak']['clients']` is a YAML mapping; the
fields the fan-out loop reads are embedded as a structure, with `Option`
marking keys that may be absent (`'environments' in client` is
`environments.isSome`, `client.get('redirect_uris', {})` is
`redirect_uris.getD []`, and the per-environment URI maps are association
lists whose key order is the YAML insertion order, as in a Python dict).
-/

/-- One entry of `config['keycloak']['clients']`. -/
structure ClientDef where
  client_id : String
  /-- `client.get('public_client', False)`. -/
  public_client : Bool := false
  /-- `client['environments']` when the key is present. -/
  environments : Option (List String) := none
  /-- `client['redirect_uris']` when present: environment → URI list. -/
  redirect_uris : Option (List (String × List String)) := none
  /-- `client['web_origins']` when present: environment → origin list. -/
  web_origins : Option (List (String × List String)) := none
  deriving DecidableEq, Repr

/-- `list(client.get(field, {}).keys())` for a per-environment map field. -/
def dictKeys : Option (List (String × List String)) → List String
  | none => []
  | some kvs => kvs.map (·.1)

/-- `client.get(field, {}).get(realm, ['*'])` for a per-environment map
field (`main` lines 534-535). -/
def dictGetDefault (field : Option (List (String × List String)))
    (realm : String) (dflt : List String) : List String :=
  match field with
  | none => dflt
  | some kvs => (kvs.lookup realm).getD dflt

/-- The environment-resolution logic of `main` lines 517-524: when the
client has an `environments` key its value is used as is; otherwise the
Python expression
`list(redirect_uris.keys()) or list(web_origins.keys()) or [realm names]`
picks the first non-empty list (an empty list is falsy). -/
def resolveEnvironments (client : ClientDef) (realmNames : List String) :
    List String :=
  match client.environments with
  | some envs => envs
  | none =>
      let r := dictKeys client.redirect_uris
      let w := dictKeys client.web_origins
      if r ≠ [] then r else if w ≠ [] then w else realmNames

/-- Resolution rule as the specification words it: the resolved environment
set is the first non-empty source among the explicit environments list, the
redirect-URI map keys, the web-origin map keys, and the full realm set.
This definition follows the spec text and is compared against
`resolveEnvironments`, which follows the code. -/
def resolveEnvironmentsSpec (client : ClientDef) (realmNames : List String) :
    List String :=
  if client.environments.getD [] ≠ [] then client.environments.getD []
  else if dictKeys client.redirect_uris ≠ [] then dictKeys client.redirect_uris
  else if dictKeys client.web_origins ≠ [] then dictKeys client.web_origins
  else realmNames

/-- The variable bundle handed to one invocation of the
`ansible/keycloak/create-client.yml` stage (`temp_vars`, `main` lines
538-551; only the per-(client, environment) fields are retained). -/
structure ProvisionCall where
  target_env : String
  client_id : String
  public_client : Bool
  redirect_uris : List String
  web_origins : List String
  deriving DecidableEq, Repr

/-- The inner loop of the fan-out (`main` lines 527-573): one provisioning
call per resolved environment, with
`full_client_id = f"{client_id}-{realm}" if not is_public else client_id`
(line 529) and redirect URIs / web origins defaulting to `['*']`. -/
def fanOutClient (client : ClientDef) (realmNames : List String) :
    List ProvisionCall :=
  (resolveEnvironments client realmNames).map fun realm =>
    { target_env := realm
      client_id :=
        if !client.public_client then client.client_id ++ "-" ++ realm
        else client.client_id
      public_client := client.public_client
      redirect_uris := dictGetDefault client.redirect_uris realm ["*"]
      web_origins := dictGetDefault client.web_origins realm ["*"] }

/-!
## Top-level exception handler (`main`, lines 736-744)
-/

/-- Outcome of the `try` block of `main`: `none` when every step completed,
`some e` when the Python exception `e` escaped a step. -/
def RunOutcome : Type := Option PyExc

/-- The single top-level handler of `main` (lines 736-744): `BootstrapError`
exits with status 1, `KeyboardInterrupt` with status 130, any other
exception with status 1; when nothing is raised `main` returns normally and
the process exits with status 0. -/
def mainExitStatus : Option PyExc → Nat
  | none => 0
  | some (.bootstrapError _) => 1
  | some .keyboardInterrupt => 130
  | some _ => 1

/-!
## Token verification (`src/services/common/auth/keycloak.py`)

`verify_token` fetches the JWKS, finds the key matching the token header's
`kid`, decodes the token with `jose.jwt.decode`, and then applies a manual
realm check.  The decode step is embedded as `jwt_decode` over explicit
oracles: `expired`/`sigValid` describe the signature outcome, and
`audMatches`/`issMatches` whether the token's audience/issuer would satisfy
the configured values — consulted only when the corresponding decode option
is on.
-/

/-- The `options` argument of `jose.jwt.decode`. -/
structure JwtDecodeOptions where
  verify_aud : Bool
  verify_iss : Bool
  deriving DecidableEq, Repr

/-- The options literal passed at `keycloak.py` line 107:
`{"verify_aud": False, "verify_iss": False}`. -/
def verifyTokenDecodeOptions : JwtDecodeOptions :=
  { verify_aud := false, verify_iss := false }

/-- The decoded token payload; only the claims `verify_token` inspects are
kept.  `iss` is `none` when the payload has no `iss` claim. -/
structure TokenPayload where
  iss : Option String
  deriving DecidableEq, Repr

/-- Errors `verify_token` surfaces (all become HTTP 401 responses). -/
inductive AuthError where
  | keyNotFound
  | expired
  | jwtError
  | invalidRealm (detail : String)
  deriving DecidableEq, Repr

/-- `jose.jwt.decode(token, key, algorithms, options)`: fails on an expired
or invalid signature; checks audience and issuer only when the respective
option enables it. -/
def jwt_decode (opts : JwtDecodeOptions) (sigValid expired : Bool)
    (audMatches issMatches : Bool) (p : TokenPayload) :
    Except AuthError TokenPayload :=
  if expired then .error .expired
  else if !sigValid then .error .jwtError
  else if opts.verify_aud && !audMatches then .error .jwtError
  else if opts.verify_iss && !issMatches then .error .jwtError
  else .ok p

/-- The manual realm extraction of `keycloak.py` line 112:
`payload["iss"].split("/realms/")[-1] if "/realms/" in payload["iss"] else
None`, i.e. the substring after the last occurrence of `"/realms/"`. -/
def pyTokenRealm (iss : String) : Option String :=
  if pyIn "/realms/" iss then some ((iss.splitOn "/realms/").getLastD "")
  else none

/-- Embedding of `verify_token` (`keycloak.py` lines 61-131) after the JWKS
fetch: `keyFound` is whether a JWKS key matches the header `kid` (lines
87-97); the token is decoded with `verifyTokenDecodeOptions` (lines
103-108); then, only when the payload has an `iss` claim, the extracted
realm is compared with `config.realm` (lines 111-117). -/
def verify_token (configRealm : String) (keyFound sigValid expired : Bool)
    (audMatches issMatches : Bool) (p : TokenPayload) :
    Except AuthError TokenPayload :=
  if !keyFound then .error .keyNotFound
  else
    match jwt_decode verifyTokenDecodeOptions sigValid expired audMatches issMatches p with
    | .error e => .error e
    | .ok payload =>
        match payload.iss with
        | none => .ok payload
        | some issText =>
            match pyTokenRealm issText with
            | some tokenRealm =>
                if tokenRealm = configRealm then .ok payload
                else .error (.invalidRealm ("Invalid realm: expected " ++
                  configRealm ++ ", got " ++ tokenRealm))
            | none => .error (.invalidRealm ("Invalid realm: expected " ++
                configRealm ++ ", got None"))

/-!
## Tunnel-scoped sub-operations

Five places in `bootstrap.py` start a `kubectl port-forward` background
process with `subprocess.Popen` and tear it down in a `try ... finally`
block: `apply_terraform` (lines 280-321) and four scopes inside `main`
(store-secrets, Keycloak configuration, Jenkins configuration, MongoDB
secrets).  Each scope is embedded as a function from a stage-success oracle
to the event trace the scope produces together with its outcome (`true` when
the body completed, `false` when a stage invocation raised and the exception
propagates after the `finally` block ran).  Popen/terminate/wait become
`openT`/`term`/`waitT` events on the tunnel's target.
-/

/-- Target of a `kubectl port-forward` tunnel. -/
inductive Tun where
  | vault
  | keycloak
  | jenkins
  deriving DecidableEq, Repr

/-- Observable events of a tunnel-scoped operation. -/
inductive Ev where
  | openT (t : Tun)
  | term (t : Tun)
  | waitT (t : Tun)
  | stage (s : String)
  deriving DecidableEq, Repr

/-- Sequential execution of a list of stage invocations inside a `try`
block: each stage runs only if all previous ones succeeded; `ok` tells
whether a given stage's external process exits zero.  Returns the emitted
events and whether the whole sequence completed (a `false` outcome means
the failing stage raised `BootstrapError` out of the `try` body). -/
def seqStages (ok : String → Bool) : List String → List Ev × Bool
  | [] => ([], true)
  | s :: rest =>
      if ok s then
        let r := seqStages ok rest
        (.stage s :: r.1, r.2)
      else
        ([.stage s], false)

/-- `apply_terraform` (lines 272-321): Popen the Vault tunnel, then inside
`try`: settle delay, `terraform init`, `terraform apply`; in `finally`:
`port_forward.terminate(); port_forward.wait()`. -/
def apply_terraform (ok : String → Bool) : List Ev × Bool :=
  let body := seqStages ok ["terraform-init", "terraform-apply"]
  (.openT .vault :: body.1 ++ [.term .vault, .waitT .vault], body.2)

/-- `main` step 14 (lines 432-460): Popen the Vault tunnel, then inside
`try`: store-secrets and setup-k8s-auth playbooks; in `finally`:
`vault_port_forward.terminate(); vault_port_forward.wait()`. -/
def storeSecretsScope (ok : String → Bool) : List Ev × Bool :=
  let body := seqStages ok ["vault-store-secrets", "vault-setup-k8s-auth"]
  (.openT .vault :: body.1 ++ [.term .vault, .waitT .vault], body.2)

/-- The stage identifiers run by the client fan-out loop, one per
(client, environment) pair, in loop order (`main` lines 510-573). -/
def clientStageIds (clients : List ClientDef) (realmNames : List String) :
    List String :=
  clients.flatMap fun client =>
    (fanOutClient client realmNames).map fun call =>
      "keycloak-create-client:" ++ call.client_id ++ "@" ++ call.target_env

/-- The stage invocations of the `try` body of `main` step 17: the Keycloak
configure playbook followed by the client fan-out loop (the loop is skipped
when `config['keycloak']` has no `clients` key). -/
def keycloakStageList (clients : Option (List ClientDef))
    (realmNames : List String) : List String :=
  "keycloak-configure" ::
    (match clients with
     | none => []
     | some cs => clientStageIds cs realmNames)

/-- `main` step 17 (lines 480-581): Popen the Vault tunnel, Popen the
Keycloak tunnel, then inside `try`: the stages of `keycloakStageList`; in
`finally`: `keycloak_port_forward.terminate();
vault_port_forward.terminate(); keycloak_port_forward.wait();
vault_port_forward.wait()`. -/
def keycloakScope (ok : String → Bool)
    (clients : Option (List ClientDef)) (realmNames : List String) :
    List Ev × Bool :=
  let body := seqStages ok (keycloakStageList clients realmNames)
  (.openT .vault :: .openT .keycloak :: body.1 ++
    [.term .keycloak, .term .vault, .waitT .keycloak, .waitT .vault],
   body.2)

/-- `main` step 20 (lines 607-644): Popen the Vault tunnel, Popen the
Jenkins tunnel, then inside `try`: the Jenkins configure and create-jobs
playbooks; in `finally`: `jenkins_port_forward.terminate();
jenkins_port_forward.wait(); vault_port_forward.terminate();
vault_port_forward.wait()`. -/
def jenkinsScope (ok : String → Bool) : List Ev × Bool :=
  let body := seqStages ok ["jenkins-configure", "jenkins-create-jobs"]
  (.openT .vault :: .openT .jenkins :: body.1 ++
    [.term .jenkins, .waitT .jenkins, .term .vault, .waitT .vault],
   body.2)

/-- `main` step 22b (lines 659-683): Popen the Vault tunnel, then inside
`try`: one configure-vault-secrets playbook per entry of
`config['mongodb']`; in `finally`: `vault_port_forward.terminate();
vault_port_forward.wait()`. -/
def mongodbScope (ok : String → Bool) (mongoEnvs : List String) :
    List Ev × Bool :=
  let body := seqStages ok (mongoEnvs.map ("mongodb-secrets:" ++ ·))
  (.openT .vault :: body.1 ++ [.term .vault, .waitT .vault], body.2)

/-- `true` when every event in the list is a stage invocation (no tunnel
open/terminate/wait events). -/
def allStageEvents (l : List Ev) : Bool :=
  l.all fun e =>
    match e with
    | .stage _ => true
    | _ => false

/-!
## The stage sequence of `main` (lines 363-734)

The `try` block of `main` is a fixed linear sequence of steps; a step runs
only if every earlier step completed, and the first raising step aborts the
rest (its exception reaches the top-level handler).  `MStep` enumerates the
steps in source order; `runMain` executes them against a failure oracle,
returning the executed steps (the last one being the failing one when any
step fails).  Tunnel lifecycle events inside a step are modelled by the
scope functions above; a raising stage still runs its scope's `finally`
block before the exception propagates, so step granularity is faithful.
-/

/-- The steps of `main`'s `try` block, in source order. -/
inductive MStep where
  | loadConfig            -- line 365
  | checkPrerequisites    -- line 368
  | createCluster         -- line 371
  | verifyCluster         -- line 375
  | deployVault           -- line 378, reads config['vault']['replicas']
  | verifyVaultRunning    -- line 382
  | vaultInit             -- line 389
  | vaultUnseal           -- line 393, reads config['vault']['replicas']
  | verifyVaultReady      -- line 399
  | vaultIngress          -- line 406
  | loadVaultCreds        -- lines 410-415, reads .vault-credentials.yml
  | loadK8sAuth           -- lines 418-423, reads .vault-k8s-auth.yml
  | applyTerraform        -- line 427
  | storeSecrets          -- line 445
  | setupK8sAuth          -- line 453
  | deployKeycloak        -- line 463
  | verifyKeycloakPods    -- line 467
  | keycloakIngress       -- line 474
  | keycloakConfigure     -- line 501
  | createClients         -- lines 508-573
  | deployJenkins         -- line 584
  | verifyJenkinsPods     -- line 594
  | jenkinsIngress        -- line 601
  | jenkinsConfigure      -- line 628
  | jenkinsCreateJobs     -- line 634
  | deployMongodb         -- line 647
  | verifyMongodbPods     -- line 651
  | mongodbSecrets        -- lines 671-676
  | deployExternalSecrets -- line 686
  | verifyExtSecretsPods  -- line 690
  | buildImages           -- line 700
  deriving DecidableEq, Repr

/-- The steps of `main` in their source order. -/
def mainSteps : List MStep :=
  [.loadConfig, .checkPrerequisites, .createCluster, .verifyCluster,
   .deployVault, .verifyVaultRunning, .vaultInit, .vaultUnseal,
   .verifyVaultReady, .vaultIngress, .loadVaultCreds, .loadK8sAuth,
   .applyTerraform, .storeSecrets, .setupK8sAuth, .deployKeycloak,
   .verifyKeycloakPods, .keycloakIngress, .keycloakConfigure,
   .createClients, .deployJenkins, .verifyJenkinsPods, .jenkinsIngress,
   .jenkinsConfigure, .jenkinsCreateJobs, .deployMongodb,
   .verifyMongodbPods, .mongodbSecrets, .deployExternalSecrets,
   .verifyExtSecretsPods, .buildImages]

/-- Run a step list in order against a failure oracle: each step executes
only if all previous ones completed; the first failing step is the last
executed one (its exception aborts the rest of the `try` block). -/
def runSteps (fails : MStep → Bool) : List MStep → List MStep
  | [] => []
  | s :: rest => if fails s then [s] else s :: runSteps fails rest

/-- The executed steps of one invocation of `main`'s `try` block. -/
def runMain (fails : MStep → Bool) : List MStep :=
  runSteps fails mainSteps

/-- The stages of `main` that consume the secrets-manager credentials
loaded in `loadVaultCreds`/`loadK8sAuth`: the Terraform apply, the
secret-storage stages, and the Keycloak/Jenkins/MongoDB configuration
stages — each passes `vault_creds['vault']['root_token']` (and, for
Terraform, the `k8s_auth_config` values) to its external stage. -/
def consumesVaultCreds : MStep → Bool
  | .applyTerraform => true
  | .storeSecrets => true
  | .setupK8sAuth => true
  | .keycloakConfigure => true
  | .createClients => true
  | .jenkinsConfigure => true
  | .jenkinsCreateJobs => true
  | .mongodbSecrets => true
  | _ => false

/-- The steps that must have completed before any credential-consuming
stage: Vault init and unseal, and the successful loading of the two handoff
files. -/
def vaultPrereqSteps : List MStep :=
  [.vaultInit, .vaultUnseal, .loadVaultCreds, .loadK8sAuth]

/-!
## Configuration document access (`load_config` and the early steps)

`load_config` (lines 43-50) checks only that `secrets.local.yaml` exists
and parses it; it performs no validation of required sections.  Sections
are first touched when a step subscripts the parsed document, e.g.
`config['vault']['replicas']` at line 378.  The document is embedded as a
YAML value; `Y.get?` is dictionary subscription.
-/

/-- A YAML value (the constructors the bootstrap code distinguishes). -/
inductive Y where
  | str (s : String)
  | nat (n : Nat)
  | bool (b : Bool)
  | dict (kvs : List (String × Y))
  | list (xs : List Y)
  deriving Repr

/-- Python `d[k]` on a mapping, as an `Option` (a missing key raises
`KeyError`). -/
def Y.get? : Y → String → Option Y
  | .dict kvs, k => kvs.lookup k
  | _, _ => none

/-- Embedding of `load_config` (lines 43-50): raise `BootstrapError` when
`secrets.local.yaml` is absent, otherwise return the parsed document
unchanged — no required-section validation happens here. -/
def load_config (fileExists : Bool) (doc : Y) : Except PyExc Y :=
  if fileExists then .ok doc
  else .error (.bootstrapError "Configuration file not found: secrets.local.yaml")

/-- `config['vault']['replicas']` (first subscripted at line 378). -/
def cfgVaultReplicas (doc : Y) : Option Y :=
  match doc.get? "vault" with
  | none => none
  | some v => v.get? "replicas"

/-- The derived failure oracle of `main` for a given configuration file
state: `loadConfig` fails exactly when the file is absent; `deployVault`
and `vaultUnseal` additionally fail (with `KeyError`) when
`config['vault']['replicas']` is missing from the document; every other
failure source (external processes, handoff files) is the `ok` oracle.
Config subscripts made by later steps (Keycloak/Jenkins credentials,
`config['mongodb']`) are folded into `ok` as well, since they are not at
issue in the claims about early validation. -/
def mainStepFails (fileExists : Bool) (doc : Y) (ok : MStep → Bool) :
    MStep → Bool
  | .loadConfig => !fileExists
  | .deployVault => (cfgVaultReplicas doc).isNone || !ok .deployVault
  | .vaultUnseal => (cfgVaultReplicas doc).isNone || !ok .vaultUnseal
  | s => !ok s

/-!
## Theorems
-/

/-- C4 counterexample: a client whose `environments` key is present but an
empty list.  The code takes the `if 'environments' in client` branch and
resolves to the empty set, while the claimed first-non-empty rule would
fall through to the redirect-URI keys and resolve to `["dev"]`. -/
theorem c4_counterexample :
    resolveEnvironments
      { client_id := "web", public_client := true,
        environments := some [],
        redirect_uris := some [("dev", ["http://dev.local/cb"])],
        web_origins := none } ["dev", "prod"] = [] ∧
    resolveEnvironmentsSpec
      { client_id := "web", public_client := true,
        environments := some [],
        redirect_uris := some [("dev", ["http://dev.local/cb"])],
        web_origins := none } ["dev", "prod"] = ["dev"] ∧
    ([] : List String) ≠ ["dev"] := by
  refine ⟨rfl, rfl, by decide⟩

/-- C4 (amended): an explicit `environments` key wins even when its list is
empty; only when the key is absent does the first non-empty source among
redirect-URI keys, web-origin keys and the declared realm set apply.  In
particular a client with no explicit environments key and no URI/origin
maps resolves to the full realm set and never to an empty set when at
least one realm is declared. -/
theorem c4_environment_resolution (client : ClientDef) (realms : List String) :
    (∀ envs, client.environments = some envs →
      resolveEnvironments client realms = envs) ∧
    (client.environments = none →
      resolveEnvironments client realms = resolveEnvironmentsSpec client realms) ∧
    (client.environments = none → client.redirect_uris = none →
      client.web_origins = none →
      resolveEnvironments client realms = realms) ∧
    (client.environments = none → client.redirect_uris = none →
      client.web_origins = none → realms ≠ [] →
      resolveEnvironments client realms ≠ []) := by
  obtain ⟨cid, pub, envs, ru, wo⟩ := client
  refine ⟨?_, ?_, ?_, ?_⟩
  · intro e he
    simp only [ClientDef.environments] at he
    subst he
    rfl
  · intro he
    simp only [ClientDef.environments] at he
    subst he
    simp [resolveEnvironments, resolveEnvironmentsSpec]
  · intro he hr hw
    simp only [ClientDef.environments, ClientDef.redirect_uris,
      ClientDef.web_origins] at he hr hw
    subst he; subst hr; subst hw
    simp [resolveEnvironments, dictKeys]
  · intro he hr hw hne
    simp only [ClientDef.environments, ClientDef.redirect_uris,
      ClientDef.web_origins] at he hr hw
    subst he; subst hr; subst hw
    simpa [resolveEnvironments, dictKeys] using hne

/-- Witness for `c4_environment_resolution` at a concrete client. -/
theorem c4_environment_resolution_witness :
    resolveEnvironments
      { client_id := "statistics-api", public_client := false,
        environments := none, redirect_uris := none, web_origins := none }
      ["develop", "staging"] = ["develop", "staging"] ∧
    resolveEnvironments
      { client_id := "statistics-api", public_client := false,
        environments := none, redirect_uris := none, web_origins := none }
      ["develop", "staging"] ≠ [] :=
  ⟨(c4_environment_resolution _ _).2.2.1 rfl rfl rfl,
   (c4_environment_resolution _ _).2.2.2 rfl rfl rfl (by decide)⟩

/-- C5: the effective client id of every provisioning call equals the base
id with `"-" + environment` appended when the client is confidential and
the unchanged base id when it is public; the claim's example client
expands to exactly the two calls `app-dev` and `app-prod`. -/
theorem c5_effective_client_id :
    (∀ (client : ClientDef) (realms : List String),
      ∀ call ∈ fanOutClient client realms,
        call.client_id =
          if client.public_client then client.client_id
          else client.client_id ++ "-" ++ call.target_env) ∧
    (fanOutClient
        { client_id := "app", public_client := false,
          environments := some ["dev", "prod"],
          redirect_uris := none, web_origins := none } ["develop"]).map
      (fun c => (c.client_id, c.target_env)) =
      [("app-dev", "dev"), ("app-prod", "prod")] := by
  constructor
  · intro client realms call hcall
    rw [fanOutClient, List.mem_map] at hcall
    obtain ⟨realm, _, rfl⟩ := hcall
    cases hp : client.public_client <;> simp [hp]
  · rfl

/-- Witness for `c5_effective_client_id` at a concrete call of the
fan-out. -/
theorem c5_effective_client_id_witness :
    ({ target_env := "dev", client_id := "app-dev", public_client := false,
       redirect_uris := ["*"], web_origins := ["*"]} : ProvisionCall).client_id =
      if (false : Bool) then "app" else "app" ++ "-" ++ "dev" :=
  c5_effective_client_id.1
    { client_id := "app", public_client := false,
      environments := some ["dev", "prod"],
      redirect_uris := none, web_origins := none } ["develop"]
    { target_env := "dev", client_id := "app-dev", public_client := false,
      redirect_uris := ["*"], web_origins := ["*"] } (by decide)

/-- C6 counterexample: the `BootstrapError` raised by `run_command` on a
non-zero exit carries only the command line, not the captured stderr text.
Two runs that differ only in stderr raise the identical error, and the
stderr text does not occur in the error payload. -/
theorem c6_counterexample :
    run_command ["terraform", "apply"] true false
        (some { returncode := 1, stdout := "", stderr := "boom" }) =
      .error (.bootstrapError "Command failed: terraform apply") ∧
    run_command ["terraform", "apply"] true false
        (some { returncode := 1, stdout := "", stderr := "other text" }) =
      .error (.bootstrapError "Command failed: terraform apply") ∧
    pyIn "boom" "Command failed: terraform apply" = false := by
  refine ⟨rfl, rfl, by decide⟩

/-- C6 (amended): with checking enabled a non-zero exit raises a
`CommandFailed`-style `BootstrapError` whose payload carries the command
line (stderr is logged, not carried); a missing executable makes the
runner itself propagate `FileNotFoundError`, which the prerequisites
checker converts to a tool-not-installed `BootstrapError`; a zero exit in
captured mode raises nothing. -/
theorem c6_command_runner_errors :
    (∀ (cmd : List String) (show_output : Bool) (r : ProcResult),
      r.returncode ≠ 0 →
        run_command cmd true show_output (some r) =
          .error (.bootstrapError ("Command failed: " ++ joinCmd cmd))) ∧
    (∀ (cmd : List String) (check show_output : Bool),
      run_command cmd check show_output none =
        .error (.fileNotFound (joinCmd cmd))) ∧
    (∀ (cmd : List String) (show_output : Bool) (r : ProcResult),
      r.returncode = 0 → run_command cmd true show_output (some r) = .ok r) ∧
    (∀ (procs : List String → Option ProcResult) (tool : String)
        (cmd : List String) (rest : List (String × List String)),
      procs cmd = none →
        checkToolsLoop procs ((tool, cmd) :: rest) =
          .error (.bootstrapError
            (tool ++ " is not installed. Please install it first."))) := by
  refine ⟨?_, ?_, ?_, ?_⟩
  · intro cmd show_output r hr
    simp [run_command, hr]
  · intro cmd check show_output
    rfl
  · intro cmd show_output r hr
    simp [run_command, hr]
  · intro procs tool cmd rest hp
    simp [checkToolsLoop, run_command, hp]

/-- Witness for `c6_command_runner_errors` at concrete inputs. -/
theorem c6_command_runner_errors_witness :
    run_command ["helm", "version"] true false
        (some { returncode := 2, stdout := "", stderr := "err" }) =
      .error (.bootstrapError ("Command failed: " ++ joinCmd ["helm", "version"])) ∧
    run_command ["helm", "version"] true false
        (some { returncode := 0, stdout := "v3", stderr := "" }) =
      .ok { returncode := 0, stdout := "v3", stderr := "" } ∧
    checkToolsLoop (fun _ => none) [("helm", ["helm", "version"])] =
      .error (.bootstrapError "helm is not installed. Please install it first.") :=
  ⟨c6_command_runner_errors.1 ["helm", "version"] false _ (by decide),
   c6_command_runner_errors.2.2.1 ["helm", "version"] false _ rfl,
   c6_command_runner_errors.2.2.2 (fun _ => none) "helm" ["helm", "version"] [] rfl⟩

/-- C7: with an already-existing cluster, `skip_if_exists` makes
`create_cluster` a no-op apart from the listing probe (so a second run with
the flag set issues no create or delete command); without the flag, the
answer `yes` (case-insensitively) triggers delete-then-create, and any
other answer reuses the cluster with no create or delete command. -/
theorem c7_cluster_reuse_policy (name : String) (servers agents : Nat)
    (listOut : String) (answer : String)
    (hex : cluster_exists name listOut = true) :
    (create_cluster name servers agents true listOut answer = [.clusterList] ∧
     (create_cluster name servers agents true listOut answer).all
       (fun c => !c.isProvisioning) = true) ∧
    (pyLower answer = "yes" →
      create_cluster name servers agents false listOut answer =
        [.clusterList, .clusterDelete name,
         .clusterCreate name servers agents]) ∧
    (pyLower answer ≠ "yes" →
      create_cluster name servers agents false listOut answer =
        [.clusterList] ∧
      (create_cluster name servers agents false listOut answer).all
        (fun c => !c.isProvisioning) = true) := by
  refine ⟨?_, ?_, ?_⟩
  · have h1 : create_cluster name servers agents true listOut answer =
        [.clusterList] := by
      simp only [create_cluster, hex, if_true, if_pos]
    exact ⟨h1, by rw [h1]; rfl⟩
  · intro ha
    simp only [create_cluster, hex, if_true, if_false, Bool.false_eq_true,
      ha, beq_self_eq_true]
  · intro ha
    have h2 : create_cluster name servers agents false listOut answer =
        [.clusterList] := by
      simp only [create_cluster, hex, if_true, if_false, Bool.false_eq_true]
      rw [if_neg (by simpa using ha)]
    exact ⟨h2, by rw [h2]; rfl⟩

/-- Witness for `c7_cluster_reuse_policy` at concrete inputs. -/
theorem c7_cluster_reuse_policy_witness :
    (create_cluster "cka" 1 2 true "cka   1/1   2/2" "x" = [.clusterList] ∧
     (create_cluster "cka" 1 2 true "cka   1/1   2/2" "x").all
       (fun c => !c.isProvisioning) = true) ∧
    create_cluster "cka" 1 2 false "cka   1/1   2/2" "YES" =
      [.clusterList, .clusterDelete "cka", .clusterCreate "cka" 1 2] ∧
    create_cluster "cka" 1 2 false "cka   1/1   2/2" "nope" = [.clusterList] :=
  ⟨(c7_cluster_reuse_policy "cka" 1 2 "cka   1/1   2/2" "x" (by decide)).1,
   (c7_cluster_reuse_policy "cka" 1 2 "cka   1/1   2/2" "YES" (by decide)).2.1
     (by decide),
   ((c7_cluster_reuse_policy "cka" 1 2 "cka   1/1   2/2" "nope" (by decide)).2.2
     (by decide)).1⟩

/-- C8: the single top-level handler of `main` maps a clean run to exit
status 0, a `BootstrapError` (or any unexpected exception) to exit status
1, and a user interrupt to exit status 130. -/
theorem c8_exit_codes :
    mainExitStatus none = 0 ∧
    (∀ msg, mainExitStatus (some (.bootstrapError msg)) = 1) ∧
    mainExitStatus (some .keyboardInterrupt) = 130 ∧
    (∀ msg, mainExitStatus (some (.fileNotFound msg)) = 1) ∧
    (∀ key, mainExitStatus (some (.keyError key)) = 1) ∧
    (∀ msg, mainExitStatus (some (.otherError msg)) = 1) :=
  ⟨rfl, fun _ => rfl, rfl, fun _ => rfl, fun _ => rfl, fun _ => rfl⟩

/-- C9: `verify_token` decodes with audience and issuer verification both
disabled (the outcome never depends on whether audience or issuer would
match); the only issuer-related check compares the substring after the
last `"/realms/"` of the `iss` claim with the configured realm; and a
payload with no `iss` claim at all passes with no realm check, given a
valid signature. -/
theorem c9_token_verification :
    verifyTokenDecodeOptions.verify_aud = false ∧
    verifyTokenDecodeOptions.verify_iss = false ∧
    (∀ (realm : String) (kf sv ex aM iM aM' iM' : Bool) (p : TokenPayload),
      verify_token realm kf sv ex aM iM p =
        verify_token realm kf sv ex aM' iM' p) ∧
    (∀ (realm : String) (aM iM : Bool) (p : TokenPayload),
      p.iss = none → verify_token realm true true false aM iM p = .ok p) ∧
    (∀ (realm : String) (aM iM : Bool) (p : TokenPayload) (s : String),
      p.iss = some s →
        (verify_token realm true true false aM iM p = .ok p ↔
          pyTokenRealm s = some realm)) := by
  refine ⟨rfl, rfl, ?_, ?_, ?_⟩
  · intro realm kf sv ex aM iM aM' iM' p
    simp [verify_token, jwt_decode, verifyTokenDecodeOptions]
  · intro realm aM iM p hiss
    simp [verify_token, jwt_decode, verifyTokenDecodeOptions, hiss]
  · intro realm aM iM p s hiss
    rcases p with ⟨iss⟩
    simp only [TokenPayload.iss] at hiss
    subst hiss
    cases htr : pyTokenRealm s with
    | none => simp [verify_token, jwt_decode, verifyTokenDecodeOptions, htr]
    | some tr =>
        by_cases hr : tr = realm
        · subst hr
          simp [verify_token, jwt_decode, verifyTokenDecodeOptions, htr]
        · simp [verify_token, jwt_decode, verifyTokenDecodeOptions, htr, hr,
            Ne.symm hr]

/-- Witness for `c9_token_verification` at a concrete realm and payload. -/
theorem c9_token_verification_witness :
    verify_token "develop" true true false true true
        { iss := none } = .ok { iss := none } ∧
    (verify_token "develop" true true false true true
        { iss := some "http://keycloak.local/realms/develop" } =
      .ok { iss := some "http://keycloak.local/realms/develop" } ↔
      pyTokenRealm "http://keycloak.local/realms/develop" = some "develop") :=
  ⟨c9_token_verification.2.2.2.1 "develop" true true { iss := none } rfl,
   c9_token_verification.2.2.2.2 "develop" true true
     { iss := some "http://keycloak.local/realms/develop" } _ rfl⟩

/-- C10: `cluster_exists` is a raw substring match of the requested name
against the cluster-list output, so a distinct existing cluster named
`cka-test` makes a run requesting `cka` report "already exists", and with
`skip_if_exists` set the provisioning step issues no create command. -/
theorem c10_cluster_existence_substring :
    (∀ name out : String,
      cluster_exists name out = charsContain name.data out.data) ∧
    cluster_exists "cka" "cka-test" = true ∧
    ("cka" : String) ≠ "cka-test" ∧
    create_cluster "cka" 1 2 true "cka-test" "" = [.clusterList] ∧
    (create_cluster "cka" 1 2 true "cka-test" "").all
      (fun c => !c.isProvisioning) = true := by
  refine ⟨fun _ _ => rfl, by decide, by decide, by decide, by decide⟩

/-- The body of a `try` block emits only stage events, never tunnel
open/terminate/wait events. -/
theorem seqStages_stageOnly (ok : String → Bool) :
    ∀ l : List String, allStageEvents (seqStages ok l).1 = true := by
  intro l
  induction l with
  | nil => rfl
  | cons s rest ih =>
      by_cases h : ok s
      · simpa [seqStages, h, allStageEvents] using ih
      · simp [seqStages, h, allStageEvents]

/-- A stage-only event list holds no tunnel events of any kind. -/
theorem stageOnly_counts (l : List Ev) (h : allStageEvents l = true) (t : Tun) :
    l.count (Ev.openT t) = 0 ∧ l.count (Ev.term t) = 0 ∧
    l.count (Ev.waitT t) = 0 := by
  induction l with
  | nil => simp
  | cons e rest ih =>
      simp only [allStageEvents, List.all_cons, Bool.and_eq_true] at h
      obtain ⟨he, hrest⟩ := h
      obtain ⟨h1, h2, h3⟩ := ih hrest
      cases e <;> simp_all [List.count_cons]

/-- C1: each of the five tunnel scopes of the orchestrator produces, for
every failure behaviour of the stages it runs, a trace of the form
`opens ++ stage events ++ closes` in which each opened tunnel is terminated
exactly once and awaited exactly once, whatever the body's outcome; in the
two dual-tunnel scopes the close sequence releases the later-acquired
tunnel before the earlier-acquired one (Keycloak scope: terminate keycloak,
terminate vault, wait keycloak, wait vault; Jenkins scope: terminate
jenkins, wait jenkins, terminate vault, wait vault). -/
theorem c1_tunnel_release_discipline :
    (∀ ok : String → Bool, ∃ (mid : List Ev) (done : Bool),
      apply_terraform ok =
        (.openT .vault :: (mid ++ [.term .vault, .waitT .vault]), done) ∧
      allStageEvents mid = true ∧
      (apply_terraform ok).1.count (.term .vault) = 1 ∧
      (apply_terraform ok).1.count (.waitT .vault) = 1) ∧
    (∀ ok : String → Bool, ∃ (mid : List Ev) (done : Bool),
      storeSecretsScope ok =
        (.openT .vault :: (mid ++ [.term .vault, .waitT .vault]), done) ∧
      allStageEvents mid = true ∧
      (storeSecretsScope ok).1.count (.term .vault) = 1 ∧
      (storeSecretsScope ok).1.count (.waitT .vault) = 1) ∧
    (∀ (ok : String → Bool) (clients : Option (List ClientDef))
        (realms : List String), ∃ (mid : List Ev) (done : Bool),
      keycloakScope ok clients realms =
        (.openT .vault :: .openT .keycloak ::
          (mid ++ [.term .keycloak, .term .vault,
                   .waitT .keycloak, .waitT .vault]), done) ∧
      allStageEvents mid = true ∧
      (keycloakScope ok clients realms).1.count (.term .vault) = 1 ∧
      (keycloakScope ok clients realms).1.count (.waitT .vault) = 1 ∧
      (keycloakScope ok clients realms).1.count (.term .keycloak) = 1 ∧
      (keycloakScope ok clients realms).1.count (.waitT .keycloak) = 1) ∧
    (∀ ok : String → Bool, ∃ (mid : List Ev) (done : Bool),
      jenkinsScope ok =
        (.openT .vault :: .openT .jenkins ::
          (mid ++ [.term .jenkins, .waitT .jenkins,
                   .term .vault, .waitT .vault]), done) ∧
      allStageEvents mid = true ∧
      (jenkinsScope ok).1.count (.term .vault) = 1 ∧
      (jenkinsScope ok).1.count (.waitT .vault) = 1 ∧
      (jenkinsScope ok).1.count (.term .jenkins) = 1 ∧
      (jenkinsScope ok).1.count (.waitT .jenkins) = 1) ∧
    (∀ (ok : String → Bool) (mongoEnvs : List String),
      ∃ (mid : List Ev) (done : Bool),
      mongodbScope ok mongoEnvs =
        (.openT .vault :: (mid ++ [.term .vault, .waitT .vault]), done) ∧
      allStageEvents mid = true ∧
      (mongodbScope ok mongoEnvs).1.count (.term .vault) = 1 ∧
      (mongodbScope ok mongoEnvs).1.count (.waitT .vault) = 1) := by
  refine ⟨?_, ?_, ?_, ?_, ?_⟩
  · intro ok
    refine ⟨(seqStages ok ["terraform-init", "terraform-apply"]).1,
      (seqStages ok ["terraform-init", "terraform-apply"]).2, rfl,
      seqStages_stageOnly ok _, ?_, ?_⟩ <;>
    · obtain ⟨_, h2, h3⟩ := stageOnly_counts _ (seqStages_stageOnly ok
        ["terraform-init", "terraform-apply"]) .vault
      simp [apply_terraform, List.count_cons, List.count_append, h2, h3]
  · intro ok
    refine ⟨(seqStages ok ["vault-store-secrets", "vault-setup-k8s-auth"]).1,
      (seqStages ok ["vault-store-secrets", "vault-setup-k8s-auth"]).2, rfl,
      seqStages_stageOnly ok _, ?_, ?_⟩ <;>
    · obtain ⟨_, h2, h3⟩ := stageOnly_counts _ (seqStages_stageOnly ok
        ["vault-store-secrets", "vault-setup-k8s-auth"]) .vault
      simp [storeSecretsScope, List.count_cons, List.count_append, h2, h3]
  · intro ok clients realms
    refine ⟨(seqStages ok (keycloakStageList clients realms)).1,
      (seqStages ok (keycloakStageList clients realms)).2, rfl,
      seqStages_stageOnly ok _, ?_, ?_, ?_, ?_⟩ <;>
    · obtain ⟨hv1, hv2, hv3⟩ := stageOnly_counts _ (seqStages_stageOnly ok
        (keycloakStageList clients realms)) .vault
      obtain ⟨hk1, hk2, hk3⟩ := stageOnly_counts _ (seqStages_stageOnly ok
        (keycloakStageList clients realms)) .keycloak
      simp [keycloakScope, List.count_cons, List.count_append,
        hv2, hv3, hk2, hk3]
  · intro ok
    refine ⟨(seqStages ok ["jenkins-configure", "jenkins-create-jobs"]).1,
      (seqStages ok ["jenkins-configure", "jenkins-create-jobs"]).2, rfl,
      seqStages_stageOnly ok _, ?_, ?_, ?_, ?_⟩ <;>
    · obtain ⟨hv1, hv2, hv3⟩ := stageOnly_counts _ (seqStages_stageOnly ok
        ["jenkins-configure", "jenkins-create-jobs"]) .vault
      obtain ⟨hj1, hj2, hj3⟩ := stageOnly_counts _ (seqStages_stageOnly ok
        ["jenkins-configure", "jenkins-create-jobs"]) .jenkins
      simp [jenkinsScope, List.count_cons, List.count_append,
        hv2, hv3, hj2, hj3]
  · intro ok mongoEnvs
    refine ⟨(seqStages ok (mongoEnvs.map ("mongodb-secrets:" ++ ·))).1,
      (seqStages ok (mongoEnvs.map ("mongodb-secrets:" ++ ·))).2, rfl,
      seqStages_stageOnly ok _, ?_, ?_⟩ <;>
    · obtain ⟨_, h2, h3⟩ := stageOnly_counts _ (seqStages_stageOnly ok
        (mongoEnvs.map ("mongodb-secrets:" ++ ·))) .vault
      simp [mongodbScope, List.count_cons, List.count_append, h2, h3]

/-- Executing a step list against a failure oracle yields a prefix of the
list, and every executed step except possibly the last one succeeded. -/
theorem runSteps_eq_take (fails : MStep → Bool) :
    ∀ l : List MStep, ∃ k, runSteps fails l = l.take k ∧
      ∀ x ∈ l.take (k - 1), fails x = false := by
  intro l
  induction l with
  | nil => exact ⟨0, rfl, by simp⟩
  | cons s rest ih =>
      by_cases hs : fails s
      · exact ⟨1, by simp [runSteps, hs], by simp⟩
      · obtain ⟨k, hk, hfl⟩ := ih
        refine ⟨k + 1, by simp [runSteps, hs, hk], ?_⟩
        cases k with
        | zero => simp
        | succ k' =>
            intro x hx
            simp only [Nat.add_sub_cancel, List.take_succ_cons,
              List.mem_cons] at hx
            rcases hx with rfl | hx
            · simpa using hs
            · exact hfl x (by simpa using hx)

/-- Position facts about the fixed step order of `main`, checked on every
prefix: whenever a credential-consuming step occurs in an executed prefix,
all four prerequisite steps occur in it at strictly earlier positions, and
they even occur with the last executed step excluded. -/
theorem mainSteps_prefix_order :
    ∀ k, k < 33 → ∀ s ∈ mainSteps.take k, consumesVaultCreds s = true →
      ∀ p ∈ vaultPrereqSteps,
        p ∈ mainSteps.take k ∧
        (mainSteps.take k).indexOf p < (mainSteps.take k).indexOf s ∧
        p ∈ mainSteps.take (k - 1) := by
  decide

/-- C2: in every run of the orchestrator, a stage that consumes
secrets-manager credentials executes only when the Vault init and unseal
stages and the loading of both handoff files have already executed —
strictly earlier in the trace and without failing. -/
theorem c2_credentials_before_consumers (fails : MStep → Bool) (s : MStep)
    (hcons : consumesVaultCreds s = true) (hmem : s ∈ runMain fails) :
    ∀ p ∈ vaultPrereqSteps,
      p ∈ runMain fails ∧
      (runMain fails).indexOf p < (runMain fails).indexOf s ∧
      fails p = false := by
  obtain ⟨k, hk, hfl⟩ := runSteps_eq_take fails mainSteps
  unfold runMain at hmem ⊢
  rw [hk] at hmem ⊢
  by_cases hk33 : k < 33
  · intro p hp
    obtain ⟨h1, h2, h3⟩ := mainSteps_prefix_order k hk33 s hmem hcons p hp
    exact ⟨h1, h2, hfl p h3⟩
  · -- k ≥ 33 > length mainSteps: the whole list executed
    have hlen : mainSteps.length ≤ k := by
      have : mainSteps.length = 31 := by decide
      omega
    have htake : mainSteps.take k = mainSteps := List.take_of_length_le hlen
    have htake31 : mainSteps.take 31 = mainSteps :=
      List.take_of_length_le (by decide)
    have hlen1 : mainSteps.length ≤ k - 1 := by
      have : mainSteps.length = 31 := by decide
      omega
    have htake1 : mainSteps.take (k - 1) = mainSteps :=
      List.take_of_length_le hlen1
    rw [htake] at hmem ⊢
    rw [← htake31] at hmem ⊢
    intro p hp
    obtain ⟨h1, h2, h3⟩ :=
      mainSteps_prefix_order 31 (by omega) s hmem hcons p hp
    refine ⟨h1, h2, hfl p ?_⟩
    rw [htake1, ← htake31]
    exact List.mem_of_mem_take h3

/-- Witness for `c2_credentials_before_consumers`: in a fully successful
run, the Terraform-apply stage is preceded by the Vault init stage. -/
theorem c2_credentials_before_consumers_witness :
    MStep.vaultInit ∈ runMain (fun _ => false) ∧
    (runMain (fun _ => false)).indexOf .vaultInit <
      (runMain (fun _ => false)).indexOf .applyTerraform ∧
    (fun (_ : MStep) => false) .vaultInit = false :=
  c2_credentials_before_consumers (fun _ => false) .applyTerraform
    (by decide) (by decide) .vaultInit (by decide)

/-- C3 counterexample: a configuration document that is present but has no
`vault` section (hence no `vault.replicas`) loads successfully — the loader
validates nothing but the file's existence — and the run proceeds through
the tool check, the cluster creation and the cluster verification before
failing at the deploy-vault stage, the first access of
`config['vault']['replicas']`.  This refutes "loading fails with a
ConfigMissing-style error before any tool check or cluster operation". -/
theorem c3_counterexample :
    load_config true (Y.dict [("keycloak", Y.dict [])]) =
      .ok (Y.dict [("keycloak", Y.dict [])]) ∧
    runMain (mainStepFails true (Y.dict [("keycloak", Y.dict [])])
        (fun _ => true)) =
      [.loadConfig, .checkPrerequisites, .createCluster, .verifyCluster,
       .deployVault] ∧
    MStep.checkPrerequisites ∈
      runMain (mainStepFails true (Y.dict [("keycloak", Y.dict [])])
        (fun _ => true)) ∧
    MStep.createCluster ∈
      runMain (mainStepFails true (Y.dict [("keycloak", Y.dict [])])
        (fun _ => true)) := by
  refine ⟨rfl, by decide, by decide, by decide⟩

/-- C3 (amended): `load_config` validates only the presence of the
configuration file, never its sections; with the file present, any
document — including one missing `vault.replicas` — loads successfully,
and a run on such a document executes the tool check and the cluster
stages and fails only at the deploy-vault stage, where
`config['vault']['replicas']` is first subscripted. -/
theorem c3_no_early_section_validation (doc : Y)
    (hdoc : cfgVaultReplicas doc = none) :
    load_config true doc = .ok doc ∧
    runMain (mainStepFails true doc (fun _ => true)) =
      [.loadConfig, .checkPrerequisites, .createCluster, .verifyCluster,
       .deployVault] := by
  refine ⟨rfl, ?_⟩
  simp [runMain, mainSteps, runSteps, mainStepFails, hdoc]

/-- Witness for `c3_no_early_section_validation` at a concrete document
with no `vault` section. -/
theorem c3_no_early_section_validation_witness :
    load_config true (Y.dict []) = .ok (Y.dict []) ∧
    runMain (mainStepFails true (Y.dict []) (fun _ => true)) =
      [.loadConfig, .checkPrerequisites, .createCluster, .verifyCluster,
       .deployVault] :=
  c3_no_early_section_validation (Y.dict []) rfl

end DevSecOps
